import Mathlib

/-!
Verification development for the ai-budget repository.

The core under study is the budget-estimation orchestrator in src/App.tsx
(ledger totals, input validation, the two-stage handleCalculate flow) and the
estimation client in src/services/geminiService.ts.  JavaScript numbers are
modelled exactly: finite values are rationals (no double rounding or overflow),
with explicit positive/negative infinity and NaN, because the source relies on
parseFloat/isNaN semantics (in particular, "Infinity" parses to an infinite,
non-NaN value).
-/

/-- Model of a JavaScript number as produced by parseFloat and consumed by the
arithmetic in App.tsx: a finite rational, an infinity, or NaN. -/
inductive JsNum where
  | finite (q : ℚ)
  | posInf
  | negInf
  | nan
deriving DecidableEq, Repr

/-- JavaScript isNaN on a JsNum. -/
def jsIsNaN : JsNum → Bool
  | .nan => true
  | _ => false

/-- JavaScript addition on JsNum (IEEE rules for infinities and NaN; finite
arithmetic is exact). -/
def jsAdd : JsNum → JsNum → JsNum
  | .nan, _ => .nan
  | .finite _, .nan => .nan
  | .posInf, .nan => .nan
  | .negInf, .nan => .nan
  | .posInf, .posInf => .posInf
  | .posInf, .negInf => .nan
  | .negInf, .posInf => .nan
  | .negInf, .negInf => .negInf
  | .posInf, .finite _ => .posInf
  | .finite _, .posInf => .posInf
  | .negInf, .finite _ => .negInf
  | .finite _, .negInf => .negInf
  | .finite a, .finite b => .finite (a + b)

/-- JavaScript negation on JsNum. -/
def jsNeg : JsNum → JsNum
  | .finite q => .finite (-q)
  | .posInf => .negInf
  | .negInf => .posInf
  | .nan => .nan

/-- JavaScript subtraction on JsNum. -/
def jsSub (a b : JsNum) : JsNum := jsAdd a (jsNeg b)

/-- Test used by the source as a comparison with zero: JavaScript x > 0
(false for NaN). -/
def jsGtZero : JsNum → Bool
  | .finite q => decide (0 < q)
  | .posInf => true
  | .negInf => false
  | .nan => false

/-- Characters treated as whitespace by JavaScript String.prototype.trim and
by parseFloat when skipping a leading prefix (the ASCII ones plus NBSP and
BOM; the source only ever meets ASCII whitespace). -/
def isJsWhitespaceChar (c : Char) : Bool :=
  c = ' ' || c = '\t' || c = '\n' || c = '\r' || c = '\x0b' || c = '\x0c' ||
    c = ' ' || c = '﻿'

/-- Model of JavaScript String.prototype.trim: drop leading and trailing
whitespace. -/
def jsTrim (s : String) : String :=
  String.mk (((s.data.dropWhile isJsWhitespaceChar).reverse.dropWhile
    isJsWhitespaceChar).reverse)

/-- Consume a maximal run of decimal digits.  Returns the accumulated value,
the count of digits consumed, and the remaining characters. -/
def takeDigits : List Char → Nat → Nat → Nat × Nat × List Char
  | [], acc, k => (acc, k, [])
  | c :: cs, acc, k =>
    if c.isDigit then takeDigits cs (10 * acc + (c.toNat - 48)) (k + 1)
    else (acc, k, c :: cs)

/-- Read the digits of an exponent; when no digit is present the exponent
part is not part of the literal and contributes 0 (parseFloat of the string
1e is 1, as in JavaScript). -/
def expDigits (neg : Bool) (cs : List Char) : Int :=
  let (v, k, _) := takeDigits cs 0 0
  if k = 0 then 0 else if neg then -(v : Int) else (v : Int)

/-- Consume an optional exponent suffix after the letter e/E of a decimal
literal: an optional sign and digits. -/
def parseExponent (cs : List Char) : Int :=
  match cs with
  | [] => 0
  | c :: cs2 =>
    if c = '+' then expDigits false cs2
    else if c = '-' then expDigits true cs2
    else expDigits false (c :: cs2)

/-- Scale a mantissa by a power of ten. -/
def applyExp (m : ℚ) (e : Int) : ℚ :=
  if 0 ≤ e then m * (10 : ℚ) ^ e.toNat else m / (10 : ℚ) ^ (-e).toNat

/-- Magnitude of an unsigned decimal literal: either the Infinity keyword or a
finite rational. -/
inductive ParsedMag where
  | inf
  | fin (q : ℚ)
deriving DecidableEq, Repr

/-- Parse the longest unsigned decimal-literal prefix of the characters, per
the ECMAScript StrUnsignedDecimalLiteral grammar used by parseFloat: the
keyword Infinity, or digits with an optional fraction and exponent.  Returns
none when no valid prefix exists. -/
def parseFloatCore (cs : List Char) : Option ParsedMag :=
  if cs.take 8 = "Infinity".data then some .inf
  else
    let (intVal, intCnt, rest1) := takeDigits cs 0 0
    let (fracVal, fracCnt, rest2) :=
      match rest1 with
      | c :: cs2 => if c = '.' then takeDigits cs2 0 0 else (0, 0, c :: cs2)
      | [] => (0, 0, [])
    if intCnt + fracCnt = 0 then none
    else
      let mantissa : ℚ := (intVal : ℚ) + (fracVal : ℚ) / (10 : ℚ) ^ fracCnt
      let e : Int :=
        match rest2 with
        | c :: cs3 => if c = 'e' || c = 'E' then parseExponent cs3 else 0
        | [] => 0
      some (.fin (applyExp mantissa e))

/-- Interpret the parsed magnitude under an optional leading minus sign. -/
def parseSigned (neg : Bool) (cs : List Char) : JsNum :=
  match parseFloatCore cs with
  | some .inf => if neg then .negInf else .posInf
  | some (.fin q) => .finite (if neg then -q else q)
  | none => .nan

/-- Model of JavaScript parseFloat: skip leading whitespace, read an optional
sign, then the longest unsigned decimal-literal prefix; NaN when none exists.
Finite results are exact rationals. -/
def parseFloat (s : String) : JsNum :=
  match s.data.dropWhile isJsWhitespaceChar with
  | [] => .nan
  | c :: rest =>
    if c = '+' then parseSigned false rest
    else if c = '-' then parseSigned true rest
    else parseSigned false (c :: rest)

/-- Expense entry from src/types (id is the Date.now() timestamp at creation,
name and amount are the raw input strings). -/
structure Expense where
  id : Nat
  name : String
  amount : String
deriving DecidableEq, Repr

/-- Ledger add, from handleAddExpense in src/App.tsx: append a fresh entry
whose id is the current time in milliseconds, passed here explicitly. -/
def handleAddExpense (now : Nat) (prevExpenses : List Expense) : List Expense :=
  prevExpenses ++ [{ id := now, name := "", amount := "" }]

/-- Ledger remove, from handleRemoveExpense in src/App.tsx: keep the entries
whose id differs from the argument. -/
def handleRemoveExpense (id : Nat) (prevExpenses : List Expense) : List Expense :=
  prevExpenses.filter (fun expense => expense.id ≠ id)

/-- Filter used for the ledger total in the totalExpenses/isFormValid useMemo
of src/App.tsx: trimmed name non-empty, trimmed amount non-empty, and the
amount does not parse to NaN. -/
def ledgerFilterPred (e : Expense) : Bool :=
  jsTrim e.name ≠ "" && jsTrim e.amount ≠ "" && !(jsIsNaN (parseFloat e.amount))

/-- Fold step of the ledger total: add the parsed amount of one entry. -/
def addAmount (sum : JsNum) (expense : Expense) : JsNum :=
  jsAdd sum (parseFloat expense.amount)

/-- Ledger total, from the totalExpenses computation in src/App.tsx:
validExpenses.reduce((sum, expense) => sum + parseFloat(expense.amount), 0). -/
def computeTotal (expenses : List Expense) : JsNum :=
  (expenses.filter ledgerFilterPred).foldl addAmount (.finite 0)

/-- Input validator, from the isFormValid computation in src/App.tsx:
!isNaN(parseFloat(grossIncome)) && parseFloat(grossIncome) > 0 &&
location.trim() !== ''.  It reads neither the expense list nor any other
state. -/
def isFormValid (grossIncome location : String) : Bool :=
  !(jsIsNaN (parseFloat grossIncome)) && jsGtZero (parseFloat grossIncome) &&
    jsTrim location ≠ ""

/-- Looser filter used for the expense list sent to the analysis stage, from
handleCalculate in src/App.tsx: trimmed name and trimmed amount non-empty,
with no numeric-parse requirement. -/
def analysisFilterPred (e : Expense) : Bool :=
  jsTrim e.name ≠ "" && jsTrim e.amount ≠ ""

/-- Snapshot of the component state in src/App.tsx (all useState fields read
or written by handleCalculate). -/
structure AppState where
  grossIncome : String
  filingStatus : String
  location : String
  expenses : List Expense
  netIncome : Option JsNum
  estimatedTax : Option JsNum
  taxDisclaimer : String
  analysis : String
  isLoading : Bool
  loadingStatus : String
  error : Option String
  showResults : Bool
deriving DecidableEq, Repr

/-- Shape returned by getEstimatedNetIncome in src/services/geminiService.ts. -/
structure TaxResult where
  netIncome : JsNum
  totalTax : JsNum
  disclaimer : String
deriving DecidableEq, Repr

/-- Arguments handleCalculate passes to getBudgetAnalysis in src/App.tsx. -/
structure AnalysisRequest where
  grossIncome : JsNum
  netIncome : JsNum
  location : String
  expenses : List Expense
  totalExpenses : JsNum
  remainingBalance : JsNum
deriving DecidableEq, Repr

/-- Validation-failure message of handleCalculate in src/App.tsx. -/
def validationErrorMsg : String :=
  "Please fill in your gross income, location, and at least one valid expense."

/-- Catch-branch message of handleCalculate in src/App.tsx. -/
def analysisErrorMsg : String :=
  "An error occurred during analysis. Please check your inputs and try again."

/-- Outcome of one remote call: the thrown error, or the value. -/
abbrev Remote (α : Type) := Except String α

/-- Model of handleCalculate in src/App.tsx.  The function body closes over
the render snapshot s: the locals totalExpenses, expenses and grossIncome it
uses are the ones computed from s, because a JavaScript closure keeps the
bindings of the render in which the invocation started.  midFlight is the
ledger content at the time the awaited calls return (a concurrent
setExpenses may have changed it); it becomes the expenses field of the final
state but is never read by the body.  taxOutcome and analysisOutcome are the
results of the two awaited remote calls.  Returns the final state together
with the request passed to getBudgetAnalysis when that call was reached. -/
def handleCalculate (s : AppState) (midFlight : List Expense)
    (taxOutcome : Remote TaxResult) (analysisOutcome : Remote String) :
    AppState × Option AnalysisRequest :=
  if !(isFormValid s.grossIncome s.location) then
    ({ s with error := some validationErrorMsg }, none)
  else
    -- setError(null); setIsLoading(true); setShowResults(true);
    -- setAnalysis(''); setNetIncome(null); setEstimatedTax(null);
    -- setLoadingStatus('Estimating your taxes...')
    let s1 : AppState :=
      { s with error := none, isLoading := true, showResults := true,
               analysis := "", netIncome := none, estimatedTax := none,
               loadingStatus := "Estimating your taxes..." }
    let totalExpenses := computeTotal s.expenses
    match taxOutcome with
    | .error _ =>
      -- catch: setError(...); setShowResults(false); finally: setIsLoading(false);
      -- setLoadingStatus('')
      ({ s1 with expenses := midFlight, error := some analysisErrorMsg,
                 showResults := false, isLoading := false, loadingStatus := "" },
        none)
    | .ok taxResult =>
      let s2 : AppState :=
        { s1 with expenses := midFlight,
                  netIncome := some taxResult.netIncome,
                  estimatedTax := some taxResult.totalTax,
                  taxDisclaimer := taxResult.disclaimer,
                  loadingStatus := "Analyzing your budget..." }
      let finalRemainingBalance := jsSub taxResult.netIncome totalExpenses
      let validExpenses := s.expenses.filter analysisFilterPred
      let req : AnalysisRequest :=
        { grossIncome := parseFloat s.grossIncome,
          netIncome := taxResult.netIncome,
          location := s.location,
          expenses := validExpenses,
          totalExpenses := totalExpenses,
          remainingBalance := finalRemainingBalance }
      match analysisOutcome with
      | .ok text =>
        ({ s2 with analysis := text, isLoading := false, loadingStatus := "" },
          some req)
      | .error _ =>
        ({ s2 with error := some analysisErrorMsg, showResults := false,
                   isLoading := false, loadingStatus := "" },
          some req)

/-- Model of getBudgetAnalysis in src/services/geminiService.ts: the remote
narrative call either throws (mapped by the catch block to a fixed error) or
returns response.text unchanged — there is no emptiness check on the returned
narrative. -/
def getBudgetAnalysis (response : Remote String) : Remote String :=
  match response with
  | .error _ => .error "Failed to generate budget analysis from AI."
  | .ok text => .ok text

/-- Model of getEstimatedNetIncome in src/services/geminiService.ts: the
remote structured call either throws (mapped by the catch block to a fixed
error) or yields the three-field result, which is repackaged unchanged. -/
def getEstimatedNetIncome (response : Remote TaxResult) : Remote TaxResult :=
  match response with
  | .error _ => .error "Failed to generate tax estimation from AI."
  | .ok r => .ok r

/-- Version of the input validator written from the spec's words, for
comparison with the one from the source: grossIncome must parse to a FINITE
number strictly greater than zero. -/
def isValidSpec (grossIncome location : String) : Bool :=
  (match parseFloat grossIncome with
   | .finite q => decide (0 < q)
   | _ => false) && jsTrim location ≠ ""

/-- Concrete fixture used by witnesses and counterexamples: a one-entry
ledger. -/
def sampleExpenses : List Expense := [⟨0, "Rent", "1500"⟩]

/-- Initial-like state with valid income and location and one valid expense. -/
def sampleState : AppState :=
  { grossIncome := "5000", filingStatus := "Single", location := "Austin",
    expenses := sampleExpenses, netIncome := none, estimatedTax := none,
    taxDisclaimer := "", analysis := "", isLoading := false,
    loadingStatus := "", error := none, showResults := false }

/-- Concrete successful tax estimate. -/
def sampleTax : TaxResult :=
  { netIncome := .finite 4000, totalTax := .finite 1000,
    disclaimer := "This is an estimate for informational purposes only." }

/-- Ledger content after a mid-flight change: one more valid expense. -/
def midFlightExpenses : List Expense :=
  [⟨0, "Rent", "1500"⟩, ⟨1, "Food", "200"⟩]

/-- State after a fully successful run started from the sample state. -/
def afterSuccess : AppState :=
  (handleCalculate sampleState sampleState.expenses (.ok sampleTax)
    (.ok "Nice budget.")).1

/-- Unparseable but non-empty expense entry used by the C5 witness. -/
def gymExpense : Expense := ⟨1, "Gym", "abc"⟩

/-- Sample state whose ledger also holds the unparseable entry. -/
def c5State : AppState :=
  { sampleState with expenses := [⟨0, "Rent", "1500"⟩, gymExpense] }

/-- Sample state carrying the results, disclaimer included, of an earlier
successful run. -/
def priorResultState : AppState :=
  { sampleState with taxDisclaimer := "Old disclaimer.",
                     netIncome := some (.finite 3000),
                     estimatedTax := some (.finite 900),
                     analysis := "Old analysis.", showResults := true }

/-- Round a rational to the nearest integer with ties to even, the rule
IEEE-754 round-to-nearest-even applies to the scaled significand. -/
def roundNearestEven (x : ℚ) : ℤ :=
  if x - ⌊x⌋ < 1/2 then ⌊x⌋
  else if 1/2 < x - ⌊x⌋ then ⌊x⌋ + 1
  else if ⌊x⌋ % 2 = 0 then ⌊x⌋ else ⌊x⌋ + 1

/-- Round a positive rational to IEEE-754 binary64: scale by the unit in the
last place of its binade (the exponent clamped at -1022 for the subnormal
range), round the scaled value to the nearest even integer, and overflow to
infinity at 2^1024. -/
def roundPosDouble (s : ℚ) : JsNum :=
  let e : ℤ := max (Int.log 2 s) (-1022)
  let ulp : ℚ := (2:ℚ) ^ (e - 52)
  let r : ℚ := (roundNearestEven (s / ulp) : ℚ) * ulp
  if (2:ℚ) ^ (1024:ℕ) ≤ r then .posInf else .finite r

/-- Round an exact value to the nearest IEEE-754 binary64 value, the
precision at which the source's JavaScript engine stores every number; zero
and the special values pass through, and negative values round by sign
symmetry (round-to-nearest-even is symmetric). -/
def roundDouble : JsNum → JsNum
  | .finite q =>
    if q = 0 then .finite 0
    else if 0 < q then roundPosDouble q
    else
      match roundPosDouble (-q) with
      | .posInf => .negInf
      | .finite r => .finite (-r)
      | x => x
  | x => x

/-- JavaScript addition as the engine executes it: exact addition of the
operands followed by rounding of the result to binary64. -/
def jsAddDouble (a b : JsNum) : JsNum := roundDouble (jsAdd a b)

/-- parseFloat as the source observes it: the exact decimal value rounded to
the nearest binary64 value. -/
def parseFloatDouble (s : String) : JsNum := roundDouble (parseFloat s)

/-- Fold step of the ledger total at double precision. -/
def addAmountDouble (sum : JsNum) (expense : Expense) : JsNum :=
  jsAddDouble sum (parseFloatDouble expense.amount)

/-- Ledger total of src/App.tsx in IEEE-754 binary64 semantics: the same
filter and reduce as computeTotal, with each parsed amount and each partial
sum rounded to binary64 as the JavaScript engine does.  (Rounding maps no
non-NaN parse to NaN, so the filter itself is unchanged.) -/
def computeTotalDouble (expenses : List Expense) : JsNum :=
  (expenses.filter ledgerFilterPred).foldl addAmountDouble (.finite 0)

/-- Valid expense whose amount, ten quadrillion, has a binade whose ulp is 2. -/
def bigExpense : Expense := ⟨0, "Savings", "10000000000000000"⟩

/-- Valid one-unit expense. -/
def coffeeExpense : Expense := ⟨1, "Coffee", "1"⟩

/-- Second valid one-unit expense. -/
def teaExpense : Expense := ⟨2, "Tea", "1"⟩

/-- Addition of JsNum values is commutative. -/
theorem jsAdd_comm (a b : JsNum) : jsAdd a b = jsAdd b a := by
  cases a <;> cases b <;> simp [jsAdd, add_comm]

/-- Addition of JsNum values is associative (exact rationals; the IEEE
special values form the standard absorbing structure). -/
theorem jsAdd_assoc (a b c : JsNum) : jsAdd (jsAdd a b) c = jsAdd a (jsAdd b c) := by
  cases a <;> cases b <;> cases c <;> simp [jsAdd, add_assoc]

/-- Adding finite zero on the right is the identity. -/
theorem jsAdd_finite_zero (a : JsNum) : jsAdd a (.finite 0) = a := by
  cases a <;> simp [jsAdd]

/-- The fold step of the ledger total is right-commutative. -/
theorem addAmount_comm (b : JsNum) (x y : Expense) :
    addAmount (addAmount b x) y = addAmount (addAmount b y) x := by
  simp only [addAmount, jsAdd_assoc]
  rw [jsAdd_comm (parseFloat x.amount) (parseFloat y.amount)]

/-- Folding the ledger sum over a permuted list gives the same value. -/
theorem foldl_addAmount_perm {l l' : List Expense} (p : l.Perm l') :
    ∀ b, l.foldl addAmount b = l'.foldl addAmount b := by
  induction p with
  | nil => intro b; rfl
  | cons x _ ih => intro b; simp only [List.foldl_cons]; exact ih _
  | swap x y l => intro b; simp only [List.foldl_cons, addAmount_comm]
  | trans _ _ ih1 ih2 => intro b; rw [ih1, ih2]

/-- Filtering before folding equals folding with a zero contribution for the
entries the filter drops. -/
theorem foldl_filter_addAmount (l : List Expense) (init : JsNum) :
    (l.filter ledgerFilterPred).foldl addAmount init =
      l.foldl
        (fun sum e =>
          jsAdd sum (if ledgerFilterPred e then parseFloat e.amount
            else .finite 0))
        init := by
  induction l generalizing init with
  | nil => rfl
  | cons e l ih =>
    by_cases h : ledgerFilterPred e = true
    · simp only [List.filter_cons, h, if_pos, List.foldl_cons, addAmount]
      exact ih _
    · simp only [List.filter_cons, h, List.foldl_cons, if_neg,
        Bool.false_eq_true, ite_false, jsAdd_finite_zero]
      exact ih _

/-- An entry rejected by the ledger filter does not change the total. -/
theorem computeTotal_drop_invalid (l1 l2 : List Expense) (e : Expense)
    (h : ledgerFilterPred e = false) :
    computeTotal (l1 ++ e :: l2) = computeTotal (l1 ++ l2) := by
  simp [computeTotal, List.filter_append, List.filter_cons, h]

/-- The sample income and location pass validation. -/
theorem isFormValid_sample : isFormValid "5000" "Austin" = true := by
  simp +decide [isFormValid, jsGtZero, jsIsNaN, parseFloat, parseSigned,
    parseFloatCore, takeDigits, expDigits, parseExponent, applyExp,
    isJsWhitespaceChar, jsTrim]

/-- Total of the sample ledger. -/
theorem computeTotal_sample : computeTotal sampleExpenses = .finite 1500 := by
  simp +decide [computeTotal, sampleExpenses, ledgerFilterPred, addAmount,
    jsAdd, parseFloat, parseSigned, parseFloatCore, takeDigits, expDigits,
    parseExponent, applyExp, isJsWhitespaceChar, jsTrim, jsIsNaN]

/-- Total of the changed ledger. -/
theorem computeTotal_midFlight : computeTotal midFlightExpenses = .finite 1700 := by
  simp +decide [computeTotal, midFlightExpenses, ledgerFilterPred, addAmount,
    jsAdd, parseFloat, parseSigned, parseFloatCore, takeDigits, expDigits,
    parseExponent, applyExp, isJsWhitespaceChar, jsTrim, jsIsNaN]
  norm_num

/-- The sample state passes validation. -/
theorem isFormValid_sampleState :
    isFormValid sampleState.grossIncome sampleState.location = true := by
  simpa [sampleState] using isFormValid_sample

/-- C1: the claim asserts that when the ledger changes between the tax call
and the analysis call, the remainingBalance passed to analyzeBudget uses the
total recomputed from the changed ledger.  False: the async body of
handleCalculate closes over the totalExpenses of the render in which it was
invoked, so with snapshot total 1500, mid-flight total 1700 and net income
4000 the request carries 4000 - 1500 = 2500, not 4000 - 1700 = 2300. -/
theorem C1_counterexample :
    (handleCalculate sampleState midFlightExpenses (.ok sampleTax)
        (.ok "Looks good.")).2.map AnalysisRequest.remainingBalance =
      some (.finite 2500) ∧
    jsSub sampleTax.netIncome (computeTotal midFlightExpenses) =
      .finite 2300 ∧
    JsNum.finite 2500 ≠ JsNum.finite 2300 := by
  refine ⟨?_, ?_, by norm_num⟩
  · simp [handleCalculate, isFormValid_sample, sampleState,
      computeTotal_sample, sampleTax, jsSub, jsNeg, jsAdd]
    norm_num
  · simp [computeTotal_midFlight, sampleTax, jsSub, jsNeg, jsAdd]
    norm_num

/-- C1 (amended): the remainingBalance passed to analyzeBudget equals the
tax result's net income minus the ledger total computed from the expenses
captured when calculate() was invoked; a mid-flight ledger change does not
affect it (the whole request is independent of midFlight). -/
theorem C1_amended (s : AppState) (midFlight : List Expense) (r : TaxResult)
    (ao : Remote String)
    (hvalid : isFormValid s.grossIncome s.location = true) :
    (handleCalculate s midFlight (.ok r) ao).2 =
      some { grossIncome := parseFloat s.grossIncome,
             netIncome := r.netIncome,
             location := s.location,
             expenses := s.expenses.filter analysisFilterPred,
             totalExpenses := computeTotal s.expenses,
             remainingBalance := jsSub r.netIncome (computeTotal s.expenses) } := by
  cases ao <;> simp [handleCalculate, hvalid]

/-- C1 witness: the amended theorem applied at the sample run. -/
theorem C1_witness :
    isFormValid sampleState.grossIncome sampleState.location = true ∧
    (handleCalculate sampleState midFlightExpenses (.ok sampleTax)
        (.ok "Looks good.")).2 =
      some { grossIncome := parseFloat sampleState.grossIncome,
             netIncome := sampleTax.netIncome,
             location := sampleState.location,
             expenses := sampleState.expenses.filter analysisFilterPred,
             totalExpenses := computeTotal sampleState.expenses,
             remainingBalance :=
               jsSub sampleTax.netIncome (computeTotal sampleState.expenses) } :=
  ⟨isFormValid_sampleState,
    C1_amended sampleState midFlightExpenses sampleTax (.ok "Looks good.")
      isFormValid_sampleState⟩

/-- C2: the claim asserts every failing invocation ends with an error message
and showResults=false, validation failures included.  False: the validation
branch of handleCalculate sets the error and returns without touching
showResults, so after a successful run (showResults=true) an invocation with
a cleared income field fails validation yet leaves showResults=true. -/
theorem C2_counterexample :
    (handleCalculate { afterSuccess with grossIncome := "" }
        midFlightExpenses (.ok sampleTax) (.ok "Again.")).1.error =
      some validationErrorMsg ∧
    (handleCalculate { afterSuccess with grossIncome := "" }
        midFlightExpenses (.ok sampleTax) (.ok "Again.")).1.showResults =
      true := by
  have hbad : isFormValid "" "Austin" = false := by decide
  constructor <;>
    simp [afterSuccess, handleCalculate, isFormValid_sample, hbad,
      sampleState]

/-- C2 (amended): a failure at the tax or analysis stage ends with the
generic error message and showResults=false; a validation failure ends with
the fixed validation message but leaves showResults at its prior value
(false only when it already was false). -/
theorem C2_amended (s : AppState) (midFlight : List Expense)
    (tax : Remote TaxResult) (ao : Remote String) :
    (isFormValid s.grossIncome s.location = false →
      (handleCalculate s midFlight tax ao).1.error = some validationErrorMsg ∧
      (handleCalculate s midFlight tax ao).1.showResults = s.showResults) ∧
    (∀ e, isFormValid s.grossIncome s.location = true → tax = .error e →
      (handleCalculate s midFlight tax ao).1.error = some analysisErrorMsg ∧
      (handleCalculate s midFlight tax ao).1.showResults = false) ∧
    (∀ r e, isFormValid s.grossIncome s.location = true → tax = .ok r →
      ao = .error e →
      (handleCalculate s midFlight tax ao).1.error = some analysisErrorMsg ∧
      (handleCalculate s midFlight tax ao).1.showResults = false) := by
  refine ⟨fun hv => ?_, fun e hv ht => ?_, fun r e hv ht ha => ?_⟩
  · simp [handleCalculate, hv]
  · subst ht; simp [handleCalculate, hv]
  · subst ht; subst ha; simp [handleCalculate, hv]

/-- C2 witness: the amended theorem applied at a failing validation (sample
state with the income cleared) and at a failing tax stage (sample state). -/
theorem C2_witness :
    ((handleCalculate { sampleState with grossIncome := "" }
        midFlightExpenses (.ok sampleTax) (.ok "t")).1.error =
      some validationErrorMsg ∧
    (handleCalculate { sampleState with grossIncome := "" }
        midFlightExpenses (.ok sampleTax) (.ok "t")).1.showResults =
      { sampleState with grossIncome := "" }.showResults) ∧
    ((handleCalculate sampleState midFlightExpenses (.error "boom")
        (.ok "t")).1.error = some analysisErrorMsg ∧
    (handleCalculate sampleState midFlightExpenses (.error "boom")
        (.ok "t")).1.showResults = false) :=
  ⟨(C2_amended { sampleState with grossIncome := "" } midFlightExpenses
      (.ok sampleTax) (.ok "t")).1 (by decide),
    (C2_amended sampleState midFlightExpenses (.error "boom")
      (.ok "t")).2.1 "boom" isFormValid_sampleState rfl⟩

/-- C3: the claim asserts that after a successful tax stage and a failed
analysis stage the final state has netIncome and totalTax unset (discarded,
not merely hidden).  False: handleCalculate stores the tax result before
awaiting the analysis call and the catch block only sets the error and
showResults=false, so both fields still hold the partial estimate. -/
theorem C3_counterexample :
    (handleCalculate sampleState sampleState.expenses (.ok sampleTax)
        (.error "network down")).1.netIncome = some (.finite 4000) ∧
    (handleCalculate sampleState sampleState.expenses (.ok sampleTax)
        (.error "network down")).1.estimatedTax = some (.finite 1000) ∧
    (handleCalculate sampleState sampleState.expenses (.ok sampleTax)
        (.error "network down")).1.showResults = false := by
  refine ⟨?_, ?_, ?_⟩ <;>
    simp [handleCalculate, isFormValid_sampleState, sampleTax]

/-- C3 (amended): after a successful tax stage and a failed analysis stage
the final state keeps the partial tax estimate in netIncome, estimatedTax
and the disclaimer — it is hidden rather than discarded, because
showResults=false and the error message is set. -/
theorem C3_amended (s : AppState) (midFlight : List Expense) (r : TaxResult)
    (e : String)
    (hvalid : isFormValid s.grossIncome s.location = true) :
    (handleCalculate s midFlight (.ok r) (.error e)).1.netIncome =
      some r.netIncome ∧
    (handleCalculate s midFlight (.ok r) (.error e)).1.estimatedTax =
      some r.totalTax ∧
    (handleCalculate s midFlight (.ok r) (.error e)).1.taxDisclaimer =
      r.disclaimer ∧
    (handleCalculate s midFlight (.ok r) (.error e)).1.showResults = false ∧
    (handleCalculate s midFlight (.ok r) (.error e)).1.error =
      some analysisErrorMsg := by
  refine ⟨?_, ?_, ?_, ?_, ?_⟩ <;> simp [handleCalculate, hvalid]

/-- C3 witness: the amended theorem applied at the sample run with a failing
analysis stage. -/
theorem C3_witness :
    (handleCalculate sampleState sampleState.expenses (.ok sampleTax)
        (.error "network down")).1.netIncome = some sampleTax.netIncome ∧
    (handleCalculate sampleState sampleState.expenses (.ok sampleTax)
        (.error "network down")).1.estimatedTax = some sampleTax.totalTax ∧
    (handleCalculate sampleState sampleState.expenses (.ok sampleTax)
        (.error "network down")).1.taxDisclaimer = sampleTax.disclaimer ∧
    (handleCalculate sampleState sampleState.expenses (.ok sampleTax)
        (.error "network down")).1.showResults = false ∧
    (handleCalculate sampleState sampleState.expenses (.ok sampleTax)
        (.error "network down")).1.error = some analysisErrorMsg :=
  C3_amended sampleState sampleState.expenses sampleTax "network down"
    isFormValid_sampleState

/-- C4: the claim asserts that an entry whose amount parses to an infinite
value contributes zero to computeTotal.  False: the ledger filter only
rejects NaN, and parseFloat of the string Infinity is the non-NaN infinite
value, so such an entry passes the filter and drives the total to infinity
rather than contributing zero. -/
theorem C4_counterexample :
    computeTotal [⟨0, "A", "Infinity"⟩] = .posInf ∧
    JsNum.posInf ≠ .finite 0 := by decide

/-- C4 (amended): computeTotal sums the parsed amount over exactly the
entries whose trimmed name and trimmed amount are non-empty and whose amount
parses to a non-NaN number — entries parsing to an infinite value are
included and contribute their infinite value — while every other entry
contributes zero; the empty collection gives 0; and on the expense list
Rent 1500 plus a nameless 200 entry the total is 1500. -/
theorem C4_amended (l : List Expense) :
    computeTotal l =
      l.foldl
        (fun sum e =>
          jsAdd sum (if ledgerFilterPred e then parseFloat e.amount
            else .finite 0))
        (.finite 0) ∧
    computeTotal [] = .finite 0 ∧
    computeTotal [⟨0, "Rent", "1500"⟩, ⟨1, "", "200"⟩] = .finite 1500 := by
  refine ⟨foldl_filter_addAmount l _, by decide, ?_⟩
  simp +decide [computeTotal, ledgerFilterPred, addAmount, jsAdd, parseFloat,
    parseSigned, parseFloatCore, takeDigits, expDigits, parseExponent,
    applyExp, isJsWhitespaceChar, jsTrim, jsIsNaN]

/-- C5: an entry with non-empty trimmed name and amount whose amount does
not parse as a number passes the looser analysis-stage filter — so it is
part of the expense list handed to getBudgetAnalysis — while the ledger
filter rejects it, so it contributes nothing to the total. -/
theorem C5_confirmed (s : AppState) (midFlight : List Expense) (r : TaxResult)
    (ao : Remote String) (e : Expense) (l1 l2 : List Expense)
    (hvalid : isFormValid s.grossIncome s.location = true)
    (hexp : s.expenses = l1 ++ e :: l2)
    (hname : jsTrim e.name ≠ "") (hamt : jsTrim e.amount ≠ "")
    (hnan : jsIsNaN (parseFloat e.amount) = true) :
    analysisFilterPred e = true ∧
    ledgerFilterPred e = false ∧
    (handleCalculate s midFlight (.ok r) ao).2.map AnalysisRequest.expenses =
      some (s.expenses.filter analysisFilterPred) ∧
    e ∈ s.expenses.filter analysisFilterPred ∧
    computeTotal s.expenses = computeTotal (l1 ++ l2) := by
  have hA : analysisFilterPred e = true := by
    simp [analysisFilterPred, hname, hamt]
  have hL : ledgerFilterPred e = false := by
    simp [ledgerFilterPred, hname, hamt, hnan]
  refine ⟨hA, hL, ?_, ?_, ?_⟩
  · cases ao <;> simp [handleCalculate, hvalid]
  · rw [hexp]
    simp [List.mem_filter, hA]
  · rw [hexp]
    exact computeTotal_drop_invalid l1 l2 e hL

/-- C5 witness: the theorem applied at the sample state extended with the
entry Gym/abc. -/
theorem C5_witness :
    analysisFilterPred gymExpense = true ∧
    ledgerFilterPred gymExpense = false ∧
    (handleCalculate c5State midFlightExpenses (.ok sampleTax)
        (.ok "t")).2.map AnalysisRequest.expenses =
      some (c5State.expenses.filter analysisFilterPred) ∧
    gymExpense ∈ c5State.expenses.filter analysisFilterPred ∧
    computeTotal c5State.expenses = computeTotal ([⟨0, "Rent", "1500"⟩] ++ []) :=
  C5_confirmed c5State midFlightExpenses sampleTax (.ok "t") gymExpense
    [⟨0, "Rent", "1500"⟩] []
    (by simp [c5State, sampleState, isFormValid_sample])
    rfl (by decide) (by decide) (by decide)

/-- C6: the claim asserts isValid is true only when the gross income parses
to a FINITE positive number.  False: the source only checks isNaN and > 0,
and the string Infinity parses to positive infinity, which is not NaN and is
greater than zero, so the form is considered valid. -/
theorem C6_counterexample :
    isFormValid "Infinity" "x" = true ∧
    isValidSpec "Infinity" "x" = false ∧
    parseFloat "Infinity" = .posInf := by decide

/-- C6 (amended): isFormValid is true iff the gross income parses to a
non-NaN value strictly greater than zero — positive infinity included — and
the trimmed location is non-empty.  It is a function of the two strings
alone, so it is independent of the expense collection. -/
theorem C6_amended (g l : String) :
    isFormValid g l = true ↔
      jsGtZero (parseFloat g) = true ∧ jsTrim l ≠ "" := by
  cases h : parseFloat g <;> simp [isFormValid, h, jsIsNaN, jsGtZero]

/-- Uniqueness of the binade exponent from two-sided power bounds. -/
theorem int_log_eq_nat (q : ℚ) (n : ℕ) (h1 : (2:ℚ)^n ≤ q)
    (h2 : q < (2:ℚ)^(n+1)) : Int.log 2 q = n := by
  have hq : 0 < q := lt_of_lt_of_le (by positivity) h1
  have hle : (n:ℤ) ≤ Int.log 2 q := by
    rw [← Int.zpow_le_iff_le_log (by norm_num) hq]
    push_cast
    rw [zpow_natCast]
    exact_mod_cast h1
  have hlt : Int.log 2 q < (n:ℤ) + 1 := by
    rw [← Int.lt_zpow_iff_log_lt (by norm_num) hq]
    push_cast
    rw [show ((n:ℤ) + 1) = (((n+1:ℕ)):ℤ) by push_cast; ring, zpow_natCast]
    exact_mod_cast h2
  omega

/-- Rounding an integer to the nearest integer is the identity. -/
theorem rne_intCast (n : ℤ) : roundNearestEven (n : ℚ) = n := by
  simp [roundNearestEven]

/-- A halfway value above an even integer rounds down to it. -/
theorem rne_add_half_even (n : ℤ) (h : n % 2 = 0) :
    roundNearestEven ((n:ℚ) + 1/2) = n := by
  have hfl : ⌊(n:ℚ) + 1/2⌋ = n := by
    rw [add_comm, Int.floor_add_int]
    norm_num
  unfold roundNearestEven
  rw [hfl]
  have hfrac : (n:ℚ) + 1/2 - n = 1/2 := by ring
  rw [hfrac]
  norm_num [h]

/-- Evaluation rule for roundPosDouble on a normal-range value. -/
theorem roundPosDouble_eq (s r : ℚ) (n m : ℤ)
    (hlog : Int.log 2 s = n) (hn : -1022 ≤ n)
    (hne : roundNearestEven (s / (2:ℚ) ^ (n - 52)) = m)
    (hr : (m:ℚ) * (2:ℚ) ^ (n - 52) = r)
    (hover : r < (2:ℚ) ^ (1024:ℕ)) :
    roundPosDouble s = .finite r := by
  simp only [roundPosDouble, hlog, max_eq_left hn, hne, hr,
    if_neg (not_le.mpr hover)]

/-- One is exactly representable in binary64. -/
theorem roundPos_one : roundPosDouble 1 = .finite 1 := by
  refine roundPosDouble_eq 1 1 0 (2^52)
    (int_log_eq_nat _ 0 (by norm_num) (by norm_num))
    (by norm_num) ?_ (by norm_num) (by norm_num)
  rw [show (1:ℚ) / (2:ℚ)^((0:ℤ) - 52) = ((2^52 : ℤ) : ℚ) by norm_num,
    rne_intCast]

/-- Two is exactly representable in binary64. -/
theorem roundPos_two : roundPosDouble 2 = .finite 2 := by
  refine roundPosDouble_eq 2 2 1 (2^52)
    (int_log_eq_nat _ 1 (by norm_num) (by norm_num))
    (by norm_num) ?_ (by norm_num) (by norm_num)
  rw [show (2:ℚ) / (2:ℚ)^((1:ℤ) - 52) = ((2^52 : ℤ) : ℚ) by norm_num,
    rne_intCast]

/-- Ten quadrillion lies in the binade with ulp 2 and is exactly
representable. -/
theorem roundPos_big :
    roundPosDouble 10000000000000000 = .finite 10000000000000000 := by
  refine roundPosDouble_eq _ _ 53 5000000000000000
    (int_log_eq_nat _ 53 (by norm_num) (by norm_num))
    (by norm_num) ?_ (by norm_num) (by norm_num)
  rw [show (10000000000000000:ℚ) / (2:ℚ)^((53:ℤ) - 52) =
      ((5000000000000000 : ℤ) : ℚ) by norm_num, rne_intCast]

/-- Ten quadrillion plus one is a tie between neighbours at distance 2 and
rounds to the even significand, losing the added unit. -/
theorem roundPos_big1 :
    roundPosDouble 10000000000000001 = .finite 10000000000000000 := by
  refine roundPosDouble_eq _ _ 53 5000000000000000
    (int_log_eq_nat _ 53 (by norm_num) (by norm_num))
    (by norm_num) ?_ (by norm_num) (by norm_num)
  rw [show (10000000000000001:ℚ) / (2:ℚ)^((53:ℤ) - 52) =
      ((5000000000000000 : ℤ) : ℚ) + 1/2 by norm_num,
    rne_add_half_even _ (by norm_num)]

/-- Ten quadrillion plus two is exactly representable. -/
theorem roundPos_big2 :
    roundPosDouble 10000000000000002 = .finite 10000000000000002 := by
  refine roundPosDouble_eq _ _ 53 5000000000000001
    (int_log_eq_nat _ 53 (by norm_num) (by norm_num))
    (by norm_num) ?_ (by norm_num) (by norm_num)
  rw [show (10000000000000002:ℚ) / (2:ℚ)^((53:ℤ) - 52) =
      ((5000000000000001 : ℤ) : ℚ) by norm_num, rne_intCast]

/-- On a positive finite value roundDouble is the magnitude rounding. -/
theorem roundDouble_pos (q : ℚ) (h : 0 < q) :
    roundDouble (.finite q) = roundPosDouble q := by
  simp [roundDouble, h.ne', h]

/-- Parsed value of the one-unit amount. -/
theorem parseFloat_one : parseFloat "1" = .finite 1 := by
  simp +decide [parseFloat, parseSigned, parseFloatCore, takeDigits,
    expDigits, parseExponent, applyExp, isJsWhitespaceChar]

/-- Parsed value of the ten-quadrillion amount. -/
theorem parseFloat_big :
    parseFloat "10000000000000000" = .finite 10000000000000000 := by
  simp +decide [parseFloat, parseSigned, parseFloatCore, takeDigits,
    expDigits, parseExponent, applyExp, isJsWhitespaceChar]

/-- Double rounding of the parsed one-unit amount. -/
theorem parseFloatDouble_one : parseFloatDouble "1" = .finite 1 := by
  rw [parseFloatDouble, parseFloat_one, roundDouble_pos _ one_pos,
    roundPos_one]

/-- Double rounding of the parsed ten-quadrillion amount. -/
theorem parseFloatDouble_big :
    parseFloatDouble "10000000000000000" = .finite 10000000000000000 := by
  rw [parseFloatDouble, parseFloat_big, roundDouble_pos _ (by norm_num),
    roundPos_big]

/-- Folding the big amount first: both added units are rounded away. -/
theorem totalDouble_big_first :
    computeTotalDouble [bigExpense, coffeeExpense, teaExpense] =
      .finite 10000000000000000 := by
  have hfil : [bigExpense, coffeeExpense, teaExpense].filter ledgerFilterPred
      = [bigExpense, coffeeExpense, teaExpense] := by decide
  have h1 : addAmountDouble (.finite 0) bigExpense =
      .finite 10000000000000000 := by
    rw [addAmountDouble, show bigExpense.amount = "10000000000000000" from rfl,
      parseFloatDouble_big, jsAddDouble,
      show jsAdd (.finite 0) (.finite 10000000000000000) =
        .finite 10000000000000000 by norm_num [jsAdd],
      roundDouble_pos _ (by norm_num), roundPos_big]
  have h2 : addAmountDouble (.finite 10000000000000000) coffeeExpense =
      .finite 10000000000000000 := by
    rw [addAmountDouble, show coffeeExpense.amount = "1" from rfl,
      parseFloatDouble_one, jsAddDouble,
      show jsAdd (.finite 10000000000000000) (.finite 1) =
        .finite 10000000000000001 by norm_num [jsAdd],
      roundDouble_pos _ (by norm_num), roundPos_big1]
  have h3 : addAmountDouble (.finite 10000000000000000) teaExpense =
      .finite 10000000000000000 := by
    rw [addAmountDouble, show teaExpense.amount = "1" from rfl,
      parseFloatDouble_one, jsAddDouble,
      show jsAdd (.finite 10000000000000000) (.finite 1) =
        .finite 10000000000000001 by norm_num [jsAdd],
      roundDouble_pos _ (by norm_num), roundPos_big1]
  rw [computeTotalDouble, hfil]
  simp only [List.foldl_cons, List.foldl_nil, h1, h2, h3]

/-- Folding the big amount last: the two units accumulate exactly and then
the final addition is exact. -/
theorem totalDouble_big_last :
    computeTotalDouble [coffeeExpense, teaExpense, bigExpense] =
      .finite 10000000000000002 := by
  have hfil : [coffeeExpense, teaExpense, bigExpense].filter ledgerFilterPred
      = [coffeeExpense, teaExpense, bigExpense] := by decide
  have h1 : addAmountDouble (.finite 0) coffeeExpense = .finite 1 := by
    rw [addAmountDouble, show coffeeExpense.amount = "1" from rfl,
      parseFloatDouble_one, jsAddDouble,
      show jsAdd (.finite 0) (.finite 1) = .finite 1 by norm_num [jsAdd],
      roundDouble_pos _ one_pos, roundPos_one]
  have h2 : addAmountDouble (.finite 1) teaExpense = .finite 2 := by
    rw [addAmountDouble, show teaExpense.amount = "1" from rfl,
      parseFloatDouble_one, jsAddDouble,
      show jsAdd (.finite 1) (.finite 1) = .finite 2 by norm_num [jsAdd],
      roundDouble_pos _ two_pos, roundPos_two]
  have h3 : addAmountDouble (.finite 2) bigExpense =
      .finite 10000000000000002 := by
    rw [addAmountDouble, show bigExpense.amount = "10000000000000000" from rfl,
      parseFloatDouble_big, jsAddDouble,
      show jsAdd (.finite 2) (.finite 10000000000000000) =
        .finite 10000000000000002 by norm_num [jsAdd],
      roundDouble_pos _ (by norm_num), roundPos_big2]
  rw [computeTotalDouble, hfil]
  simp only [List.foldl_cons, List.foldl_nil, h1, h2, h3]

/-- C7: the claim asserts computeTotal() returns the same value for every
permutation of the expense collection.  False of the program: the source
folds IEEE-754 binary64 doubles, whose addition is non-associative.  With
the valid amounts ten quadrillion, one and one, folding the big amount
first rounds each added unit away (the tie at 10^16 + 1 goes to the even
significand), giving 10^16, while folding the units first gives 10^16 + 2
exactly — two permutations of the same ledger with different totals. -/
theorem C7_counterexample :
    ([bigExpense, coffeeExpense, teaExpense] : List Expense).Perm
      [coffeeExpense, teaExpense, bigExpense] ∧
    computeTotalDouble [bigExpense, coffeeExpense, teaExpense] =
      .finite 10000000000000000 ∧
    computeTotalDouble [coffeeExpense, teaExpense, bigExpense] =
      .finite 10000000000000002 ∧
    computeTotalDouble [bigExpense, coffeeExpense, teaExpense] ≠
      computeTotalDouble [coffeeExpense, teaExpense, bigExpense] := by
  have hperm : ([bigExpense, coffeeExpense, teaExpense] : List Expense).Perm
      [coffeeExpense, teaExpense, bigExpense] :=
    (List.Perm.swap coffeeExpense bigExpense [teaExpense]).trans
      (List.Perm.cons coffeeExpense
        (List.Perm.swap teaExpense bigExpense []))
  refine ⟨hperm, totalDouble_big_first, totalDouble_big_last, ?_⟩
  rw [totalDouble_big_first, totalDouble_big_last]
  simp only [ne_eq, JsNum.finite.injEq]
  norm_num

/-- C7 (amended): the exact mathematical sum of the parsed amounts — the
ledger total with exact rational addition in place of binary64 rounding —
is invariant under permutation of the expense collection; the
floating-point total the code computes is not, as the counterexample
shows. -/
theorem C7_amended (l l' : List Expense) (h : l.Perm l') :
    computeTotal l = computeTotal l' := by
  unfold computeTotal
  exact foldl_addAmount_perm (h.filter ledgerFilterPred) _

/-- C7 witness: the amended theorem applied to a two-entry ledger and its
swap. -/
theorem C7_witness :
    ([⟨0, "Rent", "1500"⟩, ⟨1, "Food", "200"⟩] : List Expense).Perm
      [⟨1, "Food", "200"⟩, ⟨0, "Rent", "1500"⟩] ∧
    computeTotal [⟨0, "Rent", "1500"⟩, ⟨1, "Food", "200"⟩] =
      computeTotal [⟨1, "Food", "200"⟩, ⟨0, "Rent", "1500"⟩] :=
  ⟨List.Perm.swap (⟨1, "Food", "200"⟩ : Expense) (⟨0, "Rent", "1500"⟩ : Expense) [],
    C7_amended _ _
      (List.Perm.swap (⟨1, "Food", "200"⟩ : Expense) (⟨0, "Rent", "1500"⟩ : Expense) [])⟩

/-- C8: the claim asserts that getBudgetAnalysis raises an error when the
returned narrative is the empty string.  False: the source returns
response.text unchanged with no emptiness check, so an empty narrative is
returned as a normal result, not an error. -/
theorem C8_counterexample :
    getBudgetAnalysis (.ok "") = .ok "" ∧
    getBudgetAnalysis (.ok "") ≠
      .error "Failed to generate budget analysis from AI." := by
  refine ⟨rfl, ?_⟩
  simp [getBudgetAnalysis]

/-- C8 (amended): getBudgetAnalysis fails exactly when the remote call
errors — every thrown error is collapsed to the fixed message — and returns
any successful narrative unchanged, the empty string included. -/
theorem C8_amended (e t : String) :
    getBudgetAnalysis (.error e) =
      .error "Failed to generate budget analysis from AI." ∧
    getBudgetAnalysis (.ok t) = .ok t :=
  ⟨rfl, rfl⟩

/-- C9: a fresh expense entry's id is the creation timestamp, so two entries
added in the same millisecond share an id, and handleRemoveExpense with that
id deletes every entry carrying it — both duplicates at once — while never
leaving any entry with the removed id behind. -/
theorem C9_confirmed (t i : Nat) (l : List Expense) :
    (handleAddExpense t (handleAddExpense t l)).drop l.length =
      [⟨t, "", ""⟩, ⟨t, "", ""⟩] ∧
    handleRemoveExpense t (handleAddExpense t (handleAddExpense t l)) =
      handleRemoveExpense t l ∧
    (handleRemoveExpense i l).all (fun e => decide (e.id ≠ i)) = true := by
  refine ⟨?_, ?_, ?_⟩
  · simp [handleAddExpense, List.append_assoc, List.drop_left]
  · simp [handleRemoveExpense, handleAddExpense, List.filter_append]
  · simp only [handleRemoveExpense, List.all_eq_true, List.mem_filter]
    exact fun e he => he.2

/-- C10: a valid run clears netIncome, estimatedTax and the analysis text
before the tax call, but never touches the disclaimer, so when the tax stage
fails the disclaimer of the previous successful run survives while the three
cleared fields stay cleared. -/
theorem C10_confirmed (s : AppState) (midFlight : List Expense) (e : String)
    (ao : Remote String)
    (hvalid : isFormValid s.grossIncome s.location = true) :
    (handleCalculate s midFlight (.error e) ao).1.taxDisclaimer =
      s.taxDisclaimer ∧
    (handleCalculate s midFlight (.error e) ao).1.netIncome = none ∧
    (handleCalculate s midFlight (.error e) ao).1.estimatedTax = none ∧
    (handleCalculate s midFlight (.error e) ao).1.analysis = "" := by
  refine ⟨?_, ?_, ?_, ?_⟩ <;> simp [handleCalculate, hvalid]

/-- C10 witness: the theorem applied at a state holding a prior run's
disclaimer, with the tax stage failing. -/
theorem C10_witness :
    (handleCalculate priorResultState midFlightExpenses (.error "boom")
        (.ok "t")).1.taxDisclaimer = priorResultState.taxDisclaimer ∧
    (handleCalculate priorResultState midFlightExpenses (.error "boom")
        (.ok "t")).1.netIncome = none ∧
    (handleCalculate priorResultState midFlightExpenses (.error "boom")
        (.ok "t")).1.estimatedTax = none ∧
    (handleCalculate priorResultState midFlightExpenses (.error "boom")
        (.ok "t")).1.analysis = "" :=
  C10_confirmed priorResultState midFlightExpenses "boom" (.ok "t")
    (by simp [priorResultState, sampleState, isFormValid_sample])
